import Mathlib

/-!
Shallow embedding of the hotel-concierge reservation store
(src/hotel_concierge/database.py) and its tool façade
(src/hotel_concierge/server.py).

Modelling conventions:
* SQLite TEXT values are Lean `String`s; the BINARY collation used by the
  store's comparisons (`<`, `>` on date columns, `ORDER BY` on room numbers)
  is byte-wise, which for the ASCII strings involved coincides with the
  character-code lexicographic order implemented by `strLt` below.
* REAL currency columns hold 2-place decimal amounts (the seeded rates are
  whole dollars); they are modelled exactly as integer cents, for which the
  store's float arithmetic (rate × whole-day night count) is exact.
* Python `str.upper()` on the ASCII confirmation numbers is `strUpper`.
* `datetime.strptime(s, "%Y-%m-%d")` is `parseDate`; subtraction of parsed
  dates (`.days`) is the difference of proleptic-Gregorian day numbers
  (`toDays`), exactly as in CPython's `date.toordinal`.
* The `random.choices` confirmation-number generator and "today"
  (`datetime.now().date()`) are threaded as explicit parameters.
* `created_at` / `completed_at` wall-clock timestamp columns are not
  modelled; no specified behaviour reads them.
* Exceptions that escape a store function (sqlite3 lookup on an absent row,
  primary-key violation, `strptime` failure) are modelled with `Except`.
-/

set_option maxRecDepth 16384

namespace HotelConcierge

/-- Byte-wise (character-code) lexicographic strict order on character
lists, as SQLite's BINARY collation compares TEXT values. -/
def strLtb : List Char → List Char → Bool
  | _, [] => false
  | [], _ :: _ => true
  | a :: as, b :: bs =>
    if a.toNat < b.toNat then true
    else if b.toNat < a.toNat then false
    else strLtb as bs

/-- Strict order on strings used for the store's TEXT comparisons. -/
def strLt (s t : String) : Bool :=
  strLtb s.data t.data

/-- Python `str.upper()` restricted to ASCII, as applied to confirmation
numbers. -/
def strUpper (s : String) : String :=
  ⟨s.data.map Char.toUpper⟩

/-- A calendar date as produced by `datetime.strptime(s, "%Y-%m-%d")`. -/
structure Date where
  year : Nat
  month : Nat
  day : Nat
  deriving DecidableEq, Repr

/-- Gregorian leap-year rule, as in Python's `calendar`/`datetime`. -/
def isLeap (y : Nat) : Bool :=
  decide (y % 4 = 0 ∧ (y % 100 ≠ 0 ∨ y % 400 = 0))

/-- Number of days in a month of a given year. -/
def daysInMonth (y m : Nat) : Nat :=
  if m = 2 then (if isLeap y then 29 else 28)
  else if m = 4 ∨ m = 6 ∨ m = 9 ∨ m = 11 then 30
  else 31

/-- Days in the months strictly before month `m` of year `y`. -/
def daysBeforeMonth (y m : Nat) : Nat :=
  (if m > 1 then 31 else 0) +
  (if m > 2 then (if isLeap y then 29 else 28) else 0) +
  (if m > 3 then 31 else 0) + (if m > 4 then 30 else 0) +
  (if m > 5 then 31 else 0) + (if m > 6 then 30 else 0) +
  (if m > 7 then 31 else 0) + (if m > 8 then 31 else 0) +
  (if m > 9 then 30 else 0) + (if m > 10 then 31 else 0) +
  (if m > 11 then 30 else 0)

/-- Proleptic-Gregorian day number of a date, as CPython's
`date.toordinal`; differences of these give `(d2 - d1).days`. -/
def toDays (d : Date) : Nat :=
  365 * (d.year - 1) + ((d.year - 1) / 4 - (d.year - 1) / 100) +
    (d.year - 1) / 400 + daysBeforeMonth d.year d.month + d.day

/-- Chronological (lexicographic) strict comparison of parsed dates, as
Python compares `datetime` values parsed from the same midnight format. -/
def dateLtb (a b : Date) : Bool :=
  decide (a.year < b.year) ||
    (decide (a.year = b.year) &&
      (decide (a.month < b.month) ||
        (decide (a.month = b.month) && decide (a.day < b.day))))

/-- Split a character list on the minus sign, as the `%Y-%m-%d` format
separates its fields. -/
def splitDash : List Char → List (List Char)
  | [] => [[]]
  | c :: rest =>
    if c = '-' then [] :: splitDash rest
    else
      match splitDash rest with
      | [] => [[c]]
      | g :: gs => (c :: g) :: gs

/-- Character-code test for an ASCII decimal digit. -/
def isDig (c : Char) : Bool :=
  decide (48 ≤ c.toNat ∧ c.toNat ≤ 57)

/-- Numeric value of a list of ASCII digits. -/
def digitsVal (cs : List Char) : Nat :=
  cs.foldl (fun v c => v * 10 + (c.toNat - 48)) 0

/-- The behaviour of `datetime.strptime(s, "%Y-%m-%d")`: a four-digit
year, a one- or two-digit month in 1..12, and a one- or two-digit day
valid for that month and year; anything else raises `ValueError`
(modelled as `none`). -/
def parseDate (s : String) : Option Date :=
  match splitDash s.data with
  | [ys, ms, ds] =>
    if ys.length = 4 ∧ ys.all isDig ∧
        (ms.length = 1 ∨ ms.length = 2) ∧ ms.all isDig ∧
        (ds.length = 1 ∨ ds.length = 2) ∧ ds.all isDig then
      let y := digitsVal ys
      let m := digitsVal ms
      let d := digitsVal ds
      if 1 ≤ m ∧ m ≤ 12 ∧ 1 ≤ d ∧ d ≤ daysInMonth y m then
        some ⟨y, m, d⟩
      else none
    else none
  | _ => none

/-- Room-type reference row (table `room_types`); the REAL `base_rate`
is held in exact cents and `amenities` is the stored JSON text. -/
structure RoomType where
  id : String
  name : String
  description : String
  base_rate : Int
  max_occupancy : Int
  amenities : String
  deriving DecidableEq, Repr

/-- Room inventory row (table `rooms`). -/
structure Room where
  room_number : String
  room_type_id : String
  floor : Int
  status : String
  deriving DecidableEq, Repr

/-- Reservation row (table `reservations`); the wall-clock `created_at`
column is not modelled. -/
structure Reservation where
  confirmation_number : String
  guest_name : String
  guest_email : String
  guest_phone : String
  room_number : Option String
  room_type_id : String
  check_in_date : String
  check_out_date : String
  num_guests : Int
  status : String
  total_amount : Option Int
  special_requests : Option String
  deriving DecidableEq, Repr

/-- Service-request row (table `service_requests`); the timestamp
columns are not modelled. -/
structure ServiceRequest where
  id : Nat
  confirmation_number : String
  request_type : String
  description : String
  status : String
  deriving DecidableEq, Repr

/-- The whole SQLite store: the five tables plus the AUTOINCREMENT
counter backing `service_requests.id`. -/
structure DB where
  room_types : List RoomType
  rooms : List Room
  reservations : List Reservation
  service_requests : List ServiceRequest
  next_request_id : Nat
  hotel_info : List (String × String)
  deriving DecidableEq, Repr

/-- A result row of `check_availability`: the selected room columns
joined with the columns of its room type. -/
structure AvailRow where
  room_number : String
  floor : Int
  room_type_id : String
  room_type_name : String
  base_rate : Int
  max_occupancy : Int
  amenities : String
  deriving DecidableEq, Repr

namespace Database

/-- The availability query's NOT IN subquery: some reservation with a
non-NULL room number and status confirmed or checked_in satisfies the
half-open overlap test `check_in_date < check_out AND check_out_date >
check_in` against the requested range. -/
def hasConflict (db : DB) (num : String) (check_in check_out : String) : Bool :=
  db.reservations.any fun res =>
    decide (res.room_number = some num) &&
    (decide (res.status = "confirmed") || decide (res.status = "checked_in")) &&
    strLt res.check_in_date check_out && strLt check_in res.check_out_date

/-- One joined output row per room that is `available` and has no
conflicting reservation, before the optional type filter and ORDER BY. -/
def availRows (check_in check_out : String) (db : DB) : List AvailRow :=
  db.rooms.filterMap fun r =>
    match db.room_types.find? (fun rt => decide (rt.id = r.room_type_id)) with
    | none => none
    | some rt =>
      if r.status = "available" ∧ hasConflict db r.room_number check_in check_out = false
      then some ⟨r.room_number, r.floor, rt.id, rt.name, rt.base_rate,
        rt.max_occupancy, rt.amenities⟩
      else none

/-- The `ORDER BY rt.base_rate, r.room_number` key of the availability
query, both components ascending. -/
def availLE (x y : AvailRow) : Prop :=
  x.base_rate < y.base_rate ∨
    (x.base_rate = y.base_rate ∧ strLt y.room_number x.room_number = false)

instance availLE.decRel : DecidableRel availLE := fun _ _ =>
  inferInstanceAs (Decidable (_ ∨ _ ∧ _))

/-- The store's availability query (`check_availability` in
database.py).  The optional filter is a Python default-`None` argument
tested with `if room_type:`, so both `None` and the falsy empty string
leave the result unfiltered. -/
def check_availability (check_in check_out : String)
    (room_type : Option String) (db : DB) : List AvailRow :=
  let rows := availRows check_in check_out db
  let rows :=
    match room_type with
    | none => rows
    | some t => if t = "" then rows else rows.filter fun row => decide (row.room_type_id = t)
  rows.insertionSort availLE

/-- The dict returned by the store's `make_reservation`. -/
structure MkResult where
  confirmation_number : String
  guest_name : String
  room_type : String
  check_in : String
  check_out : String
  nights : Int
  total_amount : Int
  status : String
  deriving DecidableEq, Repr

/-- An exception escaping the store's `make_reservation`: `ValueError`
from `strptime`, `TypeError` from subscripting the `fetchone()` of an
absent room-type row, or the primary-key `IntegrityError` on a colliding
confirmation number (the generator has no retry loop). -/
inductive DbErr where
  | invalidDate
  | typeNotFound
  | duplicateConfirmation
  deriving DecidableEq, Repr

/-- Decidable equality for store results, so concrete runs can be checked
by evaluation. -/
instance exceptDecEq {ε α : Type} [DecidableEq ε] [DecidableEq α] :
    DecidableEq (Except ε α)
  | .error e, .error f =>
    if h : e = f then .isTrue (h ▸ rfl)
    else .isFalse (fun hh => h (by injection hh))
  | .error _, .ok _ => .isFalse (fun hh => Except.noConfusion hh)
  | .ok _, .error _ => .isFalse (fun hh => Except.noConfusion hh)
  | .ok x, .ok y =>
    if h : x = y then .isTrue (h ▸ rfl)
    else .isFalse (fun hh => h (by injection hh))


/-- The store's `make_reservation`: computes nights and total, inserts a
confirmed reservation with no room assigned, and returns the result
dict.  The randomly generated confirmation number is passed in as
`conf_num`. -/
def make_reservation (conf_num guest_name guest_email guest_phone : String)
    (room_type_id check_in check_out : String) (num_guests : Int)
    (special_requests : Option String) (db : DB) :
    Except DbErr (MkResult × DB) :=
  match parseDate check_in, parseDate check_out with
  | some d1, some d2 =>
    let nights : Int := (toDays d2 : Int) - (toDays d1 : Int)
    match db.room_types.find? (fun rt => decide (rt.id = room_type_id)) with
    | none => .error .typeNotFound
    | some rt =>
      let total : Int := rt.base_rate * nights
      if db.reservations.any (fun r => decide (r.confirmation_number = conf_num)) then
        .error .duplicateConfirmation
      else
        .ok (⟨conf_num, guest_name, room_type_id, check_in, check_out,
              nights, total, "confirmed"⟩,
          { db with reservations := db.reservations ++
              [⟨conf_num, guest_name, guest_email, guest_phone, none,
                room_type_id, check_in, check_out, num_guests, "confirmed",
                some total, special_requests⟩] })
  | _, _ => .error .invalidDate

/-- A row of `get_reservation`: `SELECT r.*` joined with the room-type
name and rate. -/
structure GetRow where
  res : Reservation
  room_type_name : String
  base_rate : Int
  deriving DecidableEq, Repr

/-- The store's `get_reservation`: case-insensitive (upper-cased) exact
match on the confirmation number, joined with the room type. -/
def get_reservation (confirmation_number : String) (db : DB) : Option GetRow :=
  (db.reservations.find?
      (fun r => decide (r.confirmation_number = strUpper confirmation_number))).bind
    fun r =>
      (db.room_types.find? (fun rt => decide (rt.id = r.room_type_id))).map
        fun rt => ⟨r, rt.name, rt.base_rate⟩

/-- The store's `cancel_reservation`: sets status to cancelled on every
row matching the upper-cased confirmation number with status confirmed,
and reports whether any row changed. -/
def cancel_reservation (confirmation_number : String) (db : DB) : Bool × DB :=
  (decide (0 < db.reservations.countP fun r =>
      decide (r.confirmation_number = strUpper confirmation_number ∧
        r.status = "confirmed")),
   { db with reservations := db.reservations.map fun r =>
       if r.confirmation_number = strUpper confirmation_number ∧
         r.status = "confirmed"
       then { r with status := "cancelled" } else r })

/-- The dict returned by the store's `submit_service_request`. -/
structure SRResult where
  request_id : Nat
  confirmation_number : String
  request_type : String
  description : String
  status : String
  deriving DecidableEq, Repr

/-- The store's `submit_service_request`: requires a reservation in
status confirmed or checked_in under the upper-cased confirmation
number; on success inserts a pending request under the next
AUTOINCREMENT id and returns the created record. -/
def submit_service_request (confirmation_number request_type description : String)
    (db : DB) : Option SRResult × DB :=
  if db.reservations.any (fun r =>
      decide (r.confirmation_number = strUpper confirmation_number) &&
      (decide (r.status = "confirmed") || decide (r.status = "checked_in"))) then
    (some ⟨db.next_request_id, strUpper confirmation_number, request_type,
       description, "pending"⟩,
     { db with
        service_requests := db.service_requests ++
          [⟨db.next_request_id, strUpper confirmation_number, request_type,
            description, "pending"⟩],
        next_request_id := db.next_request_id + 1 })
  else (none, db)

/-- The store's `get_room_types`: every room-type row in insertion
order. -/
def get_room_types (db : DB) : List RoomType :=
  db.room_types

end Database

namespace Server

/-- Outcome of the façade's `make_reservation` tool: one constructor per
early-return error text, the confirmation rendering on success, and
`storeFault` for a store exception that the façade's
`except ValueError` does not catch. -/
inductive BookResult where
  | invalidFormat
  | invalidRange
  | pastDate
  | unavailable
  | unknownRoomType
  | occupancyExceeded
  | booked (r : Database.MkResult)
  | storeFault (e : Database.DbErr)
  deriving DecidableEq, Repr

/-- The façade's `make_reservation` tool (server.py): parses both dates,
checks ordering, past date, availability, known room type and occupancy
in that order, and only then calls the store.  `today` stands for
`datetime.now().date()` and `conf_num` for the store's random draw.  A
`ValueError` raised anywhere in the body (in particular by the store's
own `strptime`) is caught and rendered as the invalid-format message. -/
def make_reservation (today : Date)
    (conf_num guest_name guest_email guest_phone : String)
    (room_type check_in_date check_out_date : String) (num_guests : Int)
    (special_requests : Option String) (db : DB) : BookResult × DB :=
  match parseDate check_in_date with
  | none => (.invalidFormat, db)
  | some check_in =>
    match parseDate check_out_date with
    | none => (.invalidFormat, db)
    | some check_out =>
      if dateLtb check_in check_out = false then (.invalidRange, db)
      else if dateLtb check_in today then (.pastDate, db)
      else if (Database.check_availability check_in_date check_out_date
          (some room_type) db).isEmpty then (.unavailable, db)
      else
        match db.room_types.find? (fun rt => decide (rt.id = room_type)) with
        | none => (.unknownRoomType, db)
        | some rt =>
          if num_guests > rt.max_occupancy then (.occupancyExceeded, db)
          else
            match Database.make_reservation conf_num guest_name guest_email
                guest_phone room_type check_in_date check_out_date num_guests
                special_requests db with
            | .ok (r, db') => (.booked r, db')
            | .error .invalidDate => (.invalidFormat, db)
            | .error e => (.storeFault e, db)

end Server

/-- The `room_types` rows seeded by `_insert_sample_data`, rates in
cents. -/
def seedRoomTypes : List RoomType :=
  [⟨"standard", "Standard Room",
    "Comfortable room with queen bed, work desk, and city view.", 14900, 2,
    "[\"Queen Bed\", \"Work Desk\", \"40\\\" TV\", \"WiFi\", \"Coffee Maker\"]"⟩,
   ⟨"deluxe", "Deluxe Room",
    "Spacious room with king bed, sitting area, and premium amenities.", 21900, 2,
    "[\"King Bed\", \"Sitting Area\", \"55\\\" TV\", \"WiFi\", \"Mini Bar\", \"Nespresso Machine\"]"⟩,
   ⟨"suite", "Executive Suite",
    "Luxurious suite with separate living room, bedroom, and panoramic views.", 39900, 4,
    "[\"King Bed\", \"Living Room\", \"Dining Area\", \"65\\\" TV\", \"WiFi\", \"Full Bar\", \"Jacuzzi Tub\", \"Balcony\"]"⟩,
   ⟨"family", "Family Room",
    "Large room with two queen beds, perfect for families.", 24900, 4,
    "[\"Two Queen Beds\", \"Sofa Bed\", \"50\\\" TV\", \"WiFi\", \"Mini Fridge\", \"Microwave\"]"⟩]

/-- The 20 seeded rooms: numbers counted up from 201 across floors 2-5,
five per floor in the pattern standard, standard, deluxe, suite,
family. -/
def seedRooms : List Room :=
  [⟨"201", "standard", 2, "available"⟩, ⟨"202", "standard", 2, "available"⟩,
   ⟨"203", "deluxe", 2, "available"⟩, ⟨"204", "suite", 2, "available"⟩,
   ⟨"205", "family", 2, "available"⟩,
   ⟨"206", "standard", 3, "available"⟩, ⟨"207", "standard", 3, "available"⟩,
   ⟨"208", "deluxe", 3, "available"⟩, ⟨"209", "suite", 3, "available"⟩,
   ⟨"210", "family", 3, "available"⟩,
   ⟨"211", "standard", 4, "available"⟩, ⟨"212", "standard", 4, "available"⟩,
   ⟨"213", "deluxe", 4, "available"⟩, ⟨"214", "suite", 4, "available"⟩,
   ⟨"215", "family", 4, "available"⟩,
   ⟨"216", "standard", 5, "available"⟩, ⟨"217", "standard", 5, "available"⟩,
   ⟨"218", "deluxe", 5, "available"⟩, ⟨"219", "suite", 5, "available"⟩,
   ⟨"220", "family", 5, "available"⟩]

/-- The three seeded reservations, instantiated at a seeding date of
2026-10-12 (the seed script writes dates relative to `datetime.now()`;
CONF001 runs from the day before to two days after, CONF002 from three
to five days after, CONF003 from one to four days after).  Note CONF001
references room number 301, which is not a seeded room (foreign keys are
not enforced by the store). -/
def seedReservations : List Reservation :=
  [⟨"CONF001", "John Smith", "john.smith@email.com", "555-0101", some "301",
    "deluxe", "2026-10-11", "2026-10-14", 2, "checked_in", some 65700,
    some "Late checkout requested"⟩,
   ⟨"CONF002", "Sarah Johnson", "sarah.j@email.com", "555-0102", none,
    "suite", "2026-10-15", "2026-10-17", 2, "confirmed", some 79800,
    some "Anniversary celebration"⟩,
   ⟨"CONF003", "The Williams Family", "williams@email.com", "555-0103", none,
    "family", "2026-10-13", "2026-10-16", 4, "confirmed", some 74700,
    some "Need crib for infant"⟩]

/-- The seeded `hotel_info` key-value rows (structured values stored as
their serialized JSON text). -/
def seedHotelInfo : List (String × String) :=
  [("name", "The Grand Azure Hotel"),
   ("address", "123 Oceanview Boulevard, Seaside City, CA 90210"),
   ("phone", "1-800-555-AZURE"),
   ("email", "info@grandazure.com"),
   ("check_in_time", "3:00 PM"),
   ("check_out_time", "11:00 AM"),
   ("early_check_in", "Early check-in available from 12:00 PM for $50 (subject to availability)"),
   ("late_check_out", "Late check-out until 2:00 PM for $50 (subject to availability)"),
   ("cancellation_policy", "Free cancellation up to 48 hours before check-in. One night charge for late cancellation."),
   ("parking", "Valet parking: $35/night. Self-parking: $25/night."),
   ("wifi", "Complimentary high-speed WiFi throughout the hotel."),
   ("pool", "Rooftop pool open 6:00 AM - 10:00 PM daily. Towels provided."),
   ("fitness", "24-hour fitness center on Level 3. Complimentary for all guests."),
   ("spa", "Azure Spa open 9:00 AM - 9:00 PM. Reservations recommended."),
   ("restaurant", "The Azure Table: Breakfast 6:30-10:30 AM, Dinner 5:30-10:00 PM. Smart casual dress code."),
   ("room_service", "24-hour room service available. Menu in room or dial 0."),
   ("local_attractions", "[\x7b\"name\": \"Seaside Pier\", \"distance\": \"0.3 miles\", \"description\": \"Historic pier with shops and restaurants\"\x7d, \x7b\"name\": \"Ocean View Beach\", \"distance\": \"0.1 miles\", \"description\": \"Sandy beach with lifeguards\"\x7d, \x7b\"name\": \"Maritime Museum\", \"distance\": \"0.5 miles\", \"description\": \"Local history and marine exhibits\"\x7d, \x7b\"name\": \"Downtown Shopping District\", \"distance\": \"1.2 miles\", \"description\": \"Boutiques, galleries, and dining\"\x7d]")]

/-- The freshly seeded store (`init_database` on an empty file at a
seeding date of 2026-10-12); no service request exists yet, so the
AUTOINCREMENT counter hands out 1 first. -/
def seedDb : DB :=
  ⟨seedRoomTypes, seedRooms, seedReservations, [], 1, seedHotelInfo⟩

/-- A one-room store used to exercise the overlap rule at its
boundaries: a single available standard room 201 holding one confirmed
assigned reservation for the half-open range 2026-10-15..2026-10-17. -/
def boundaryDb : DB :=
  ⟨[⟨"standard", "Standard Room",
     "Comfortable room with queen bed, work desk, and city view.", 14900, 2,
     "[\"Queen Bed\", \"Work Desk\", \"40\\\" TV\", \"WiFi\", \"Coffee Maker\"]"⟩],
   [⟨"201", "standard", 2, "available"⟩],
   [⟨"CONFAAA001", "Bob Jones", "bob@example.com", "555-0100", some "201",
     "standard", "2026-10-15", "2026-10-17", 1, "confirmed", some 29800,
     none⟩],
   [], 1, []⟩



/-! ### Order lemmas for the embedded SQLite text comparison -/

theorem strLtb_asymm {as bs : List Char} (h : strLtb as bs = true) :
    strLtb bs as = false := by
  induction as generalizing bs with
  | nil =>
    cases bs with
    | nil => simp [strLtb] at h
    | cons b bs => simp [strLtb]
  | cons a as ih =>
    cases bs with
    | nil => simp [strLtb] at h
    | cons b bs =>
      simp only [strLtb] at h ⊢
      by_cases hab : a.toNat < b.toNat
      · have hba : ¬ b.toNat < a.toNat := Nat.lt_asymm hab
        simp [hab, hba]
      · by_cases hba : b.toNat < a.toNat
        · simp [hab, hba] at h
        · simp [hab, hba] at h ⊢
          exact ih h

theorem strLtb_neg_trans {as bs cs : List Char}
    (h₁ : strLtb bs as = false) (h₂ : strLtb cs bs = false) :
    strLtb cs as = false := by
  induction as generalizing bs cs with
  | nil =>
    cases cs with
    | nil => rfl
    | cons c cs => rfl
  | cons a as ih =>
    cases bs with
    | nil => simp [strLtb] at h₁
    | cons b bs =>
      cases cs with
      | nil => simp [strLtb] at h₂
      | cons c cs =>
        simp only [strLtb] at h₁ h₂ ⊢
        by_cases hba : b.toNat < a.toNat
        · simp [hba] at h₁
        · by_cases hcb : c.toNat < b.toNat
          · simp [hcb] at h₂
          · have hca : ¬ c.toNat < a.toNat := fun hca =>
              hcb (Nat.lt_of_lt_of_le hca (Nat.le_of_not_lt hba))
            rw [if_neg hca]
            by_cases hac : a.toNat < c.toNat
            · rw [if_pos hac]
            · rw [if_neg hac]
              have hab : ¬ a.toNat < b.toNat := fun hab =>
                hac (Nat.lt_of_lt_of_le hab (Nat.le_of_not_lt hcb))
              have hbc : ¬ b.toNat < c.toNat := fun hbc =>
                Nat.lt_irrefl b.toNat (Nat.lt_of_lt_of_le hbc
                  (Nat.le_trans (Nat.le_of_not_lt hac) (Nat.le_of_not_lt hba)))
              rw [if_neg hba, if_neg hab] at h₁
              rw [if_neg hcb, if_neg hbc] at h₂
              exact ih h₁ h₂

theorem strLtb_total (as bs : List Char) :
    strLtb as bs = false ∨ strLtb bs as = false := by
  cases hx : strLtb as bs with
  | false => exact Or.inl rfl
  | true => exact Or.inr (strLtb_asymm hx)

theorem strLt_total (s t : String) :
    strLt s t = false ∨ strLt t s = false := by
  unfold strLt
  exact strLtb_total s.data t.data

theorem strLt_neg_trans {s t u : String}
    (h₁ : strLt t s = false) (h₂ : strLt u t = false) : strLt u s = false := by
  unfold strLt at h₁ h₂ ⊢
  exact strLtb_neg_trans h₁ h₂
namespace Database

instance availLE.isTotal : IsTotal AvailRow availLE where
  total x y := by
    rcases Int.lt_trichotomy x.base_rate y.base_rate with h | h | h
    · exact Or.inl (Or.inl h)
    · rcases strLt_total y.room_number x.room_number with hs | hs
      · exact Or.inl (Or.inr ⟨h, hs⟩)
      · exact Or.inr (Or.inr ⟨h.symm, hs⟩)
    · exact Or.inr (Or.inl h)

instance availLE.isTrans : IsTrans AvailRow availLE where
  trans x y z hxy hyz := by
    rcases hxy with h₁ | ⟨he₁, hs₁⟩
    · rcases hyz with h₂ | ⟨he₂, _⟩
      · exact Or.inl (Int.lt_trans h₁ h₂)
      · exact Or.inl (he₂ ▸ h₁)
    · rcases hyz with h₂ | ⟨he₂, hs₂⟩
      · exact Or.inl (he₁ ▸ h₂)
      · exact Or.inr ⟨he₁.trans he₂, strLt_neg_trans hs₁ hs₂⟩

/-! ### Characterization lemmas for the store operations -/

theorem mem_availRows {check_in check_out : String} {db : DB} {row : AvailRow} :
    row ∈ availRows check_in check_out db ↔
      ∃ r ∈ db.rooms, ∃ rt,
        db.room_types.find? (fun rt => decide (rt.id = r.room_type_id)) = some rt ∧
        r.status = "available" ∧
        hasConflict db r.room_number check_in check_out = false ∧
        row = ⟨r.room_number, r.floor, rt.id, rt.name, rt.base_rate,
          rt.max_occupancy, rt.amenities⟩ := by
  unfold availRows
  rw [List.mem_filterMap]
  constructor
  · rintro ⟨r, hr, hf⟩
    split at hf
    · simp at hf
    · rename_i rt hrt
      split at hf
      · rename_i hcond
        exact ⟨r, hr, rt, hrt, hcond.1, hcond.2, (Option.some.inj hf).symm⟩
      · simp at hf
  · rintro ⟨r, hr, rt, hrt, hs, hc, hrow⟩
    refine ⟨r, hr, ?_⟩
    rw [hrt]
    show (if r.status = "available" ∧
        hasConflict db r.room_number check_in check_out = false then
      some (⟨r.room_number, r.floor, rt.id, rt.name, rt.base_rate,
        rt.max_occupancy, rt.amenities⟩ : AvailRow) else none) = some row
    rw [if_pos ⟨hs, hc⟩, hrow]

theorem mem_check_availability_none {check_in check_out : String} {db : DB}
    {row : AvailRow} :
    row ∈ check_availability check_in check_out none db ↔
      row ∈ availRows check_in check_out db :=
  (List.perm_insertionSort availLE _).mem_iff

theorem check_availability_some_eq {check_in check_out t : String} {db : DB}
    (ht : t ≠ "") :
    check_availability check_in check_out (some t) db =
      ((availRows check_in check_out db).filter
        (fun row => decide (row.room_type_id = t))).insertionSort availLE := by
  show (if t = "" then availRows check_in check_out db
    else (availRows check_in check_out db).filter
      (fun row => decide (row.room_type_id = t))).insertionSort availLE = _
  rw [if_neg ht]

theorem mem_check_availability_some {check_in check_out t : String} {db : DB}
    {row : AvailRow} (ht : t ≠ "") :
    row ∈ check_availability check_in check_out (some t) db ↔
      row ∈ availRows check_in check_out db ∧ row.room_type_id = t := by
  rw [check_availability_some_eq ht,
    (List.perm_insertionSort availLE _).mem_iff, List.mem_filter]
  simp

/-- Full characterization of a successful store `make_reservation`: what
it returns and the single row it appends. -/
theorem make_reservation_ok {conf_num gn ge gp t check_in check_out : String}
    {ng : Int} {sp : Option String} {db : DB} {rt : RoomType} {d1 d2 : Date}
    (hrt : db.room_types.find? (fun rt => decide (rt.id = t)) = some rt)
    (hci : parseDate check_in = some d1) (hco : parseDate check_out = some d2)
    (hfresh : db.reservations.any
      (fun r => decide (r.confirmation_number = conf_num)) = false) :
    make_reservation conf_num gn ge gp t check_in check_out ng sp db =
      .ok (⟨conf_num, gn, t, check_in, check_out,
          (toDays d2 : Int) - (toDays d1 : Int),
          rt.base_rate * ((toDays d2 : Int) - (toDays d1 : Int)), "confirmed"⟩,
        { db with reservations := db.reservations ++
          [⟨conf_num, gn, ge, gp, none, t, check_in, check_out, ng, "confirmed",
            some (rt.base_rate * ((toDays d2 : Int) - (toDays d1 : Int))),
            sp⟩] }) := by
  unfold make_reservation
  rw [hci, hco, hrt, hfresh]
  rfl

/-- Conversely, a successful store `make_reservation` can only arise
from parsed dates, a found room type and a fresh confirmation number,
and its outputs have the characterized shape. -/
theorem make_reservation_ok_inv {conf_num gn ge gp t check_in check_out : String}
    {ng : Int} {sp : Option String} {db : DB} {r : MkResult} {db' : DB}
    (h : make_reservation conf_num gn ge gp t check_in check_out ng sp db =
      .ok (r, db')) :
    ∃ d1 d2 rt,
      parseDate check_in = some d1 ∧ parseDate check_out = some d2 ∧
      db.room_types.find? (fun rt => decide (rt.id = t)) = some rt ∧
      db.reservations.any
        (fun r => decide (r.confirmation_number = conf_num)) = false ∧
      r = ⟨conf_num, gn, t, check_in, check_out,
          (toDays d2 : Int) - (toDays d1 : Int),
          rt.base_rate * ((toDays d2 : Int) - (toDays d1 : Int)), "confirmed"⟩ ∧
      db' = { db with reservations := db.reservations ++
        [⟨conf_num, gn, ge, gp, none, t, check_in, check_out, ng, "confirmed",
          some (rt.base_rate * ((toDays d2 : Int) - (toDays d1 : Int))),
          sp⟩] } := by
  unfold make_reservation at h
  rcases hci : parseDate check_in with _ | d1 <;> rw [hci] at h
  · rcases hco : parseDate check_out with _ | d2 <;> rw [hco] at h <;> simp at h
  · rcases hco : parseDate check_out with _ | d2 <;> rw [hco] at h
    · simp at h
    · rcases hrt : db.room_types.find? (fun rt => decide (rt.id = t))
        with _ | rt <;> rw [hrt] at h
      · simp at h
      · rcases hfresh : db.reservations.any
            (fun r => decide (r.confirmation_number = conf_num)) <;>
          rw [hfresh] at h
        · simp only [Bool.false_eq_true, if_false, Except.ok.injEq,
            Prod.mk.injEq] at h
          exact ⟨d1, d2, rt, rfl, rfl, hrt, rfl, h.1.symm, h.2.symm⟩
        · simp at h

theorem hasConflict_append_roomless {db : DB} {res : Reservation}
    (hnum : res.room_number = none) (num a b : String) :
    hasConflict { db with reservations := db.reservations ++ [res] } num a b =
      hasConflict db num a b := by
  simp [hasConflict, List.any_append, hnum]

theorem availRows_append_roomless {db : DB} {res : Reservation}
    (hnum : res.room_number = none) (a b : String) :
    availRows a b { db with reservations := db.reservations ++ [res] } =
      availRows a b db := by
  unfold availRows
  show db.rooms.filterMap _ = db.rooms.filterMap _
  congr 1
  funext r
  rw [show ({ db with reservations := db.reservations ++ [res] } : DB).room_types
      = db.room_types from rfl,
    hasConflict_append_roomless hnum]

theorem check_availability_append_roomless {db : DB} {res : Reservation}
    (hnum : res.room_number = none) (a b : String) (f : Option String) :
    check_availability a b f { db with reservations := db.reservations ++ [res] } =
      check_availability a b f db := by
  unfold check_availability
  rw [availRows_append_roomless hnum]

end Database


/-! ### Claim C1 -/

/-- C1 counterexample: `make_reservation` books every one of the eight
standard rooms' type for 2026-11-01..2026-11-03, yet a
`check_availability` query for that very same (maximally intersecting)
range still returns all eight standard rooms.  The created reservation
carries no room number, and the availability query only excludes rooms
named by a reservation's non-NULL `room_number`, so no room of the
booked type is ever excluded — the claimed exclusion for intersecting
ranges fails. -/
theorem c1_counterexample :
    (Database.make_reservation "CONFAAAAAA" "Alice" "alice@example.com"
        "555-0199" "standard" "2026-11-01" "2026-11-03" 2 none
        seedDb).toOption.map
      (fun p => (Database.check_availability "2026-11-01" "2026-11-03"
        (some "standard") p.2).map AvailRow.room_number) =
      some ["201", "202", "206", "207", "211", "212", "216", "217"] := by
  decide

/-- C1 (amended): a reservation created by `make_reservation` is stored
with no assigned room, so a later `check_availability` query returns
exactly what it returned before the booking — rooms of the booked type
remain included both for query ranges intersecting the booked range and
for disjoint ones; only reservations with an assigned room number ever
exclude a room. -/
theorem c1_created_reservation_never_blocks
    {conf_num gn ge gp t ci co : String} {ng : Int} {sp : Option String}
    {db : DB} {r : Database.MkResult} {db' : DB}
    (h : Database.make_reservation conf_num gn ge gp t ci co ng sp db =
      .ok (r, db'))
    (a b : String) (f : Option String) :
    Database.check_availability a b f db' =
      Database.check_availability a b f db := by
  obtain ⟨d1, d2, rt, -, -, -, -, -, hdb'⟩ := Database.make_reservation_ok_inv h
  subst hdb'
  exact Database.check_availability_append_roomless rfl a b f

/-- Witness for C1 (amended) on the seeded store at a concrete booking. -/
theorem c1_created_reservation_never_blocks_witness :
    Database.check_availability "2026-11-01" "2026-11-03" none
      { seedDb with reservations := seedDb.reservations ++
        [⟨"CONFAAAAAA", "Alice", "alice@example.com", "555-0199", none,
          "standard", "2026-11-01", "2026-11-03", 2, "confirmed",
          some 29800, none⟩] } =
    Database.check_availability "2026-11-01" "2026-11-03" none seedDb :=
  @c1_created_reservation_never_blocks "CONFAAAAAA" "Alice"
    "alice@example.com" "555-0199" "standard" "2026-11-01" "2026-11-03" 2 none
    seedDb
    ⟨"CONFAAAAAA", "Alice", "standard", "2026-11-01", "2026-11-03", 2, 29800,
      "confirmed"⟩
    { seedDb with reservations := seedDb.reservations ++
      [⟨"CONFAAAAAA", "Alice", "alice@example.com", "555-0199", none,
        "standard", "2026-11-01", "2026-11-03", 2, "confirmed",
        some 29800, none⟩] }
    (by decide) "2026-11-01" "2026-11-03" none


/-! ### Claim C2 -/

/-- C2: for a room in `available` status whose (unique) assigned
reservation has status confirmed or checked_in and covers the half-open
range from its check-in a to its check-out b, `check_availability(c,d)`
excludes that room exactly when a < d and c < b; in particular a
reservation with b = c, or with a = d, is no conflict and the room is
returned. -/
theorem c2_halfopen_overlap {db : DB} {r : Room} {rt : RoomType}
    {res : Reservation} {c d : String}
    (hr : r ∈ db.rooms) (hst : r.status = "available")
    (hrt : db.room_types.find? (fun x => decide (x.id = r.room_type_id)) =
      some rt)
    (hnodup : (db.rooms.map Room.room_number).Nodup)
    (hres : res ∈ db.reservations)
    (hnum : res.room_number = some r.room_number)
    (hstat : res.status = "confirmed" ∨ res.status = "checked_in")
    (huniq : ∀ res' ∈ db.reservations, res'.room_number = some r.room_number →
      res'.status = "confirmed" ∨ res'.status = "checked_in" → res' = res) :
    r.room_number ∉
        (Database.check_availability c d none db).map AvailRow.room_number ↔
      (strLt res.check_in_date d = true ∧ strLt c res.check_out_date = true) := by
  have hconf : Database.hasConflict db r.room_number c d = true ↔
      (strLt res.check_in_date d = true ∧ strLt c res.check_out_date = true) := by
    unfold Database.hasConflict
    rw [List.any_eq_true]
    constructor
    · rintro ⟨x, hx, hpx⟩
      simp only [Bool.and_eq_true, Bool.or_eq_true, decide_eq_true_eq] at hpx
      obtain ⟨⟨⟨hxnum, hxstat⟩, hx1⟩, hx2⟩ := hpx
      have hxres := huniq x hx hxnum hxstat
      subst hxres
      exact ⟨hx1, hx2⟩
    · rintro ⟨h1, h2⟩
      refine ⟨res, hres, ?_⟩
      simp only [Bool.and_eq_true, Bool.or_eq_true, decide_eq_true_eq]
      exact ⟨⟨⟨hnum, hstat⟩, h1⟩, h2⟩
  have hmem : r.room_number ∈
      (Database.check_availability c d none db).map AvailRow.room_number ↔
      Database.hasConflict db r.room_number c d = false := by
    rw [List.mem_map]
    constructor
    · rintro ⟨row, hrow, hrnum⟩
      rw [Database.mem_check_availability_none, Database.mem_availRows] at hrow
      obtain ⟨r2, hr2, rt2, hrt2, hs2, hc2, hroweq⟩ := hrow
      rw [hroweq] at hrnum
      have hrr : r2 = r := List.inj_on_of_nodup_map hnodup hr2 hr hrnum
      subst hrr
      exact hc2
    · intro hc
      refine ⟨⟨r.room_number, r.floor, rt.id, rt.name, rt.base_rate,
        rt.max_occupancy, rt.amenities⟩, ?_, rfl⟩
      rw [Database.mem_check_availability_none, Database.mem_availRows]
      exact ⟨r, hr, rt, hrt, hst, hc, rfl⟩
  constructor
  · intro hnot
    rcases Bool.eq_false_or_eq_true (Database.hasConflict db r.room_number c d)
      with ht | hf
    · exact hconf.mp ht
    · exact absurd (hmem.mpr hf) hnot
  · intro hov hmem2
    have hfalse := hmem.mp hmem2
    rw [hconf.mpr hov] at hfalse
    simp at hfalse

/-- Witness for C2 at the boundary b = c: the assigned reservation ends
exactly on the query's check-in date, so room 201 is returned. -/
theorem c2_halfopen_overlap_witness :
    "201" ∈ (Database.check_availability "2026-10-17" "2026-10-19" none
      boundaryDb).map AvailRow.room_number :=
  not_not.mp (fun hnot =>
    absurd ((@c2_halfopen_overlap boundaryDb
        ⟨"201", "standard", 2, "available"⟩
        ⟨"standard", "Standard Room",
          "Comfortable room with queen bed, work desk, and city view.", 14900, 2,
          "[\"Queen Bed\", \"Work Desk\", \"40\\\" TV\", \"WiFi\", \"Coffee Maker\"]"⟩
        ⟨"CONFAAA001", "Bob Jones", "bob@example.com", "555-0100", some "201",
          "standard", "2026-10-15", "2026-10-17", 1, "confirmed", some 29800,
          none⟩
        "2026-10-17" "2026-10-19"
        (by decide) rfl (by decide) (by decide) (by decide) rfl (Or.inl rfl)
        (by decide)).mp hnot)
      (by decide))


/-! ### Claim C3 -/

/-- C3: `cancel_reservation` reports success exactly when a reservation
under the (upper-cased) confirmation number exists in status confirmed,
in which case that reservation's status becomes cancelled; on failure
the store is unchanged, and a repeated cancel of the same confirmation
number always reports failure. -/
theorem c3_cancel_only_from_confirmed (conf : String) (db : DB) :
    ((Database.cancel_reservation conf db).1 = true ↔
      ∃ res ∈ db.reservations,
        res.confirmation_number = strUpper conf ∧ res.status = "confirmed") ∧
    (∀ res ∈ db.reservations,
      res.confirmation_number = strUpper conf → res.status = "confirmed" →
        ({ res with status := "cancelled" } : Reservation) ∈
          (Database.cancel_reservation conf db).2.reservations) ∧
    ((Database.cancel_reservation conf db).1 = false →
      (Database.cancel_reservation conf db).2 = db) ∧
    (Database.cancel_reservation conf
        ((Database.cancel_reservation conf db).2)).1 = false := by
  refine ⟨?_, ?_, ?_, ?_⟩
  · show decide (0 < db.reservations.countP fun r =>
        decide (r.confirmation_number = strUpper conf ∧
          r.status = "confirmed")) = true ↔ _
    rw [decide_eq_true_eq, List.countP_pos]
    simp only [decide_eq_true_eq]
  · intro res hres hcn hst
    have hres2 : ({ res with status := "cancelled" } : Reservation) =
        (if res.confirmation_number = strUpper conf ∧ res.status = "confirmed"
          then { res with status := "cancelled" } else res) := by
      rw [if_pos ⟨hcn, hst⟩]
    rw [hres2]
    exact List.mem_map_of_mem _ hres
  · intro h
    have h0 : db.reservations.countP (fun r =>
        decide (r.confirmation_number = strUpper conf ∧
          r.status = "confirmed")) = 0 :=
      Nat.eq_zero_of_not_pos (of_decide_eq_false h)
    have hall := List.countP_eq_zero.mp h0
    show ({ db with reservations := db.reservations.map fun r =>
        if r.confirmation_number = strUpper conf ∧ r.status = "confirmed"
        then { r with status := "cancelled" } else r } : DB) = db
    have hmap : db.reservations.map (fun r =>
        if r.confirmation_number = strUpper conf ∧ r.status = "confirmed"
        then { r with status := "cancelled" } else r) = db.reservations := by
      rw [show db.reservations.map (fun r =>
          if r.confirmation_number = strUpper conf ∧ r.status = "confirmed"
          then { r with status := "cancelled" } else r) =
          db.reservations.map id from
        List.map_congr_left (fun a ha => by
          rw [if_neg (by simpa using hall a ha)]; rfl), List.map_id]
    rw [hmap]
  · show decide (0 < (db.reservations.map fun r =>
        if r.confirmation_number = strUpper conf ∧ r.status = "confirmed"
        then { r with status := "cancelled" } else r).countP fun r =>
          decide (r.confirmation_number = strUpper conf ∧
            r.status = "confirmed")) = false
    rw [List.countP_map,
      List.countP_eq_zero.mpr (fun a _ => ?_)]
    · rfl
    · simp only [Function.comp_apply]
      by_cases ha : a.confirmation_number = strUpper conf ∧
        a.status = "confirmed"
      · rw [if_pos ha]
        simp
      · rw [if_neg ha]
        simpa using ha

/-- Witness for C3 on the seeded store: cancelling CONF002 succeeds and
cancelling an absent confirmation number leaves the store unchanged. -/
theorem c3_cancel_only_from_confirmed_witness :
    (Database.cancel_reservation "CONF002" seedDb).1 = true ∧
    (Database.cancel_reservation "CONFXXXXXX" seedDb).2 = seedDb :=
  ⟨(c3_cancel_only_from_confirmed "CONF002" seedDb).1.mpr
    ⟨⟨"CONF002", "Sarah Johnson", "sarah.j@email.com", "555-0102", none,
      "suite", "2026-10-15", "2026-10-17", 2, "confirmed", some 79800,
      some "Anniversary celebration"⟩, by decide, by decide, rfl⟩,
   (c3_cancel_only_from_confirmed "CONFXXXXXX" seedDb).2.2.1 (by decide)⟩


/-! ### Claim C4 -/

/-- C4: `submit_service_request` returns a created record exactly when a
reservation under the (upper-cased) confirmation number exists in status
confirmed or checked_in; on success it appends one ServiceRequest in
status pending under the fresh AUTOINCREMENT id and bumps the counter;
otherwise it returns none and inserts nothing. -/
theorem c4_service_request_gate (conf ty desc : String) (db : DB) :
    ((Database.submit_service_request conf ty desc db).1.isSome ↔
      ∃ res ∈ db.reservations, res.confirmation_number = strUpper conf ∧
        (res.status = "confirmed" ∨ res.status = "checked_in")) ∧
    (∀ r, (Database.submit_service_request conf ty desc db).1 = some r →
      r.status = "pending" ∧ r.request_id = db.next_request_id ∧
      (Database.submit_service_request conf ty desc db).2.service_requests =
        db.service_requests ++
          [⟨db.next_request_id, strUpper conf, ty, desc, "pending"⟩] ∧
      (Database.submit_service_request conf ty desc db).2.next_request_id =
        db.next_request_id + 1) ∧
    ((∀ sr ∈ db.service_requests, sr.id < db.next_request_id) →
      ∀ r, (Database.submit_service_request conf ty desc db).1 = some r →
        ∀ sr ∈ db.service_requests, sr.id ≠ r.request_id) ∧
    ((Database.submit_service_request conf ty desc db).1 = none →
      (Database.submit_service_request conf ty desc db).2 = db) := by
  by_cases h : db.reservations.any (fun r =>
      decide (r.confirmation_number = strUpper conf) &&
      (decide (r.status = "confirmed") ||
        decide (r.status = "checked_in"))) = true
  · have hS : Database.submit_service_request conf ty desc db =
        (some ⟨db.next_request_id, strUpper conf, ty, desc, "pending"⟩,
         { db with
            service_requests := (db.service_requests ++
              [⟨db.next_request_id, strUpper conf, ty, desc, "pending"⟩]),
            next_request_id := db.next_request_id + 1 }) := by
      unfold Database.submit_service_request
      rw [if_pos h]
    refine ⟨?_, ?_, ?_, ?_⟩
    · rw [hS]
      simp only [Option.isSome_some, true_iff]
      obtain ⟨x, hx, hpx⟩ := List.any_eq_true.mp h
      simp only [Bool.and_eq_true, Bool.or_eq_true, decide_eq_true_eq] at hpx
      exact ⟨x, hx, hpx.1, hpx.2⟩
    · intro r hr
      rw [hS] at hr ⊢
      cases Option.some.inj hr
      exact ⟨rfl, rfl, rfl, rfl⟩
    · intro hbound r hr sr hsr
      rw [hS] at hr
      cases Option.some.inj hr
      exact Nat.ne_of_lt (hbound sr hsr)
    · intro hnone
      rw [hS] at hnone
      simp at hnone
  · have hS : Database.submit_service_request conf ty desc db = (none, db) := by
      unfold Database.submit_service_request
      rw [if_neg h]
    refine ⟨?_, ?_, ?_, ?_⟩
    · rw [hS]
      simp only [Option.isSome_none, Bool.false_eq_true, false_iff]
      rw [Bool.not_eq_true] at h
      have hall := List.any_eq_false.mp h
      rintro ⟨x, hx, hcn, hst⟩
      have hx2 := hall x hx
      simp only [Bool.and_eq_true, Bool.or_eq_true, decide_eq_true_eq] at hx2
      exact hx2 ⟨hcn, hst⟩
    · intro r hr
      rw [hS] at hr
      simp at hr
    · intro _ r hr
      rw [hS] at hr
      simp at hr
    · intro _
      rw [hS]

/-- Witness for C4 on the seeded store: a lower-cased checked_in
confirmation number succeeds, and an absent one leaves the store
unchanged. -/
theorem c4_service_request_gate_witness :
    (Database.submit_service_request "conf001" "housekeeping" "Need towels"
      seedDb).1.isSome ∧
    (Database.submit_service_request "CONFXXXXXX" "concierge" "Dinner table"
      seedDb).2 = seedDb :=
  ⟨(c4_service_request_gate "conf001" "housekeeping" "Need towels" seedDb).1.mpr
    ⟨⟨"CONF001", "John Smith", "john.smith@email.com", "555-0101", some "301",
      "deluxe", "2026-10-11", "2026-10-14", 2, "checked_in", some 65700,
      some "Late checkout requested"⟩, by decide, by decide, Or.inr rfl⟩,
   (c4_service_request_gate "CONFXXXXXX" "concierge" "Dinner table"
     seedDb).2.2.2 (by decide)⟩

/-! ### Claim C5 -/

/-- C5: for an existing room type with nightly rate R (in cents) and any
parsed date pair with whole-day difference N, `make_reservation`
computes total = R × N — a formula mentioning neither the other
reservations nor the guest count — and inserts the reservation with
status confirmed and no room assigned; concretely, booking a standard
room (rate 149.00) for the two-night range 2026-11-01..2026-11-03
yields total 298.00 (29800 cents). -/
theorem c5_total_is_rate_times_nights :
    (∀ (conf_num gn ge gp t ci co : String) (ng : Int) (sp : Option String)
      (db : DB) (rt : RoomType) (d1 d2 : Date),
      db.room_types.find? (fun x => decide (x.id = t)) = some rt →
      parseDate ci = some d1 → parseDate co = some d2 →
      db.reservations.any
        (fun r => decide (r.confirmation_number = conf_num)) = false →
      Database.make_reservation conf_num gn ge gp t ci co ng sp db =
        .ok (⟨conf_num, gn, t, ci, co, (toDays d2 : Int) - (toDays d1 : Int),
            rt.base_rate * ((toDays d2 : Int) - (toDays d1 : Int)),
            "confirmed"⟩,
          { db with reservations := db.reservations ++
            [⟨conf_num, gn, ge, gp, none, t, ci, co, ng, "confirmed",
              some (rt.base_rate * ((toDays d2 : Int) - (toDays d1 : Int))),
              sp⟩] })) ∧
    ((Database.make_reservation "CONFAB12CD" "Guest" "guest@example.com"
        "555-0100" "standard" "2026-11-01" "2026-11-03" 1 none
        seedDb).toOption.map (fun p => p.1.total_amount) = some 29800) := by
  refine ⟨?_, by decide⟩
  intro conf_num gn ge gp t ci co ng sp db rt d1 d2 hrt hci hco hfresh
  exact Database.make_reservation_ok hrt hci hco hfresh

/-- Witness for C5 on the seeded store: two nights in a suite at rate
399.00 cost 798.00. -/
theorem c5_total_is_rate_times_nights_witness :
    Database.make_reservation "CONFAB12CD" "Guest" "guest@example.com"
        "555-0100" "suite" "2026-11-01" "2026-11-03" 3 none seedDb =
      .ok (⟨"CONFAB12CD", "Guest", "suite", "2026-11-01", "2026-11-03", 2,
          79800, "confirmed"⟩,
        { seedDb with reservations := seedDb.reservations ++
          [⟨"CONFAB12CD", "Guest", "guest@example.com", "555-0100", none,
            "suite", "2026-11-01", "2026-11-03", 3, "confirmed", some 79800,
            none⟩] }) :=
  c5_total_is_rate_times_nights.1 "CONFAB12CD" "Guest" "guest@example.com"
    "555-0100" "suite" "2026-11-01" "2026-11-03" 3 none seedDb
    ⟨"suite", "Executive Suite",
      "Luxurious suite with separate living room, bedroom, and panoramic views.",
      39900, 4,
      "[\"King Bed\", \"Living Room\", \"Dining Area\", \"65\\\" TV\", \"WiFi\", \"Full Bar\", \"Jacuzzi Tub\", \"Balcony\"]"⟩
    ⟨2026, 11, 1⟩ ⟨2026, 11, 3⟩ (by decide) (by decide) (by decide) (by decide)


/-! ### Claim C6 -/

/-- C6: after a successful `make_reservation` under a fresh upper-cased
confirmation number, `get_reservation` on any letter-casing of that
number returns a record whose guest name, check-in date, check-out date
and total amount match what was created. -/
theorem c6_roundtrip_any_case
    {db : DB} {conf s gn ge gp t ci co : String} {ng : Int}
    {sp : Option String} {rt : RoomType} {d1 d2 : Date}
    (hfresh : ∀ r ∈ db.reservations, r.confirmation_number ≠ conf)
    (hrt : db.room_types.find? (fun x => decide (x.id = t)) = some rt)
    (hci : parseDate ci = some d1) (hco : parseDate co = some d2)
    (hs : strUpper s = conf) :
    ∃ res db' g,
      Database.make_reservation conf gn ge gp t ci co ng sp db =
        .ok (res, db') ∧
      Database.get_reservation s db' = some g ∧
      g.res.guest_name = gn ∧ g.res.check_in_date = ci ∧
      g.res.check_out_date = co ∧ g.res.total_amount = some res.total_amount := by
  have hany : db.reservations.any
      (fun r => decide (r.confirmation_number = conf)) = false := by
    rw [List.any_eq_false]
    intro x hx
    simpa using hfresh x hx
  have hok := @Database.make_reservation_ok conf gn ge gp t ci co ng sp db rt
    d1 d2 hrt hci hco hany
  refine ⟨_, _,
    ⟨⟨conf, gn, ge, gp, none, t, ci, co, ng, "confirmed",
       some (rt.base_rate * ((toDays d2 : Int) - (toDays d1 : Int))), sp⟩,
     rt.name, rt.base_rate⟩,
    hok, ?_, rfl, rfl, rfl, rfl⟩
  unfold Database.get_reservation
  rw [hs]
  show ((db.reservations ++
      [(⟨conf, gn, ge, gp, none, t, ci, co, ng, "confirmed",
        some (rt.base_rate * ((toDays d2 : Int) - (toDays d1 : Int))),
        sp⟩ : Reservation)]).find?
        (fun r : Reservation => decide (r.confirmation_number = conf))).bind
      (fun r : Reservation => (db.room_types.find?
        (fun rt : RoomType => decide (rt.id = r.room_type_id))).map
          (fun rt : RoomType =>
            (⟨r, rt.name, rt.base_rate⟩ : Database.GetRow))) = _
  rw [List.find?_append,
    List.find?_eq_none.mpr (fun x hx => by simpa using hfresh x hx),
    Option.none_or, List.find?_cons_of_pos _ (by simp)]
  show (db.room_types.find? (fun x => decide (x.id = t))).map _ = _
  rw [hrt]
  rfl

/-- Witness for C6: booking a suite on the seeded store under
CONFAB12CD and fetching it back with the all-lower-case confirmation
number. -/
theorem c6_roundtrip_any_case_witness :
    ∃ res db' g,
      Database.make_reservation "CONFAB12CD" "Guest" "guest@example.com"
          "555-0100" "suite" "2026-11-01" "2026-11-03" 3 none seedDb =
        .ok (res, db') ∧
      Database.get_reservation "confab12cd" db' = some g ∧
      g.res.guest_name = "Guest" ∧ g.res.check_in_date = "2026-11-01" ∧
      g.res.check_out_date = "2026-11-03" ∧
      g.res.total_amount = some res.total_amount :=
  @c6_roundtrip_any_case seedDb "CONFAB12CD" "confab12cd" "Guest"
    "guest@example.com" "555-0100" "suite" "2026-11-01" "2026-11-03" 3 none
    ⟨"suite", "Executive Suite",
      "Luxurious suite with separate living room, bedroom, and panoramic views.",
      39900, 4,
      "[\"King Bed\", \"Living Room\", \"Dining Area\", \"65\\\" TV\", \"WiFi\", \"Full Bar\", \"Jacuzzi Tub\", \"Balcony\"]"⟩
    ⟨2026, 11, 1⟩ ⟨2026, 11, 3⟩
    (by decide) (by decide) (by decide) (by decide) (by decide)


/-! ### Claim C7 -/

/-- C7: the façade's booking tool applies its guards in exactly the
order date-format parse, check-out after check-in, check-in not before
today, availability non-empty, room-type id known, guest count within
maximum occupancy — each conjunct pins the result when the earlier
guards pass and that guard is the first to fail — and the store is left
untouched unless every guard passes and the booking happens; in
particular, on the seeded store, booking a standard room (maximum
occupancy 2) for 5 guests fails with the occupancy error while booking
a suite for 3 guests (maximum occupancy 4) passes that guard and books. -/
theorem c7_facade_guard_order :
    (∀ today cn gn ge gp t ci co ng sp db, parseDate ci = none →
      Server.make_reservation today cn gn ge gp t ci co ng sp db =
        (.invalidFormat, db)) ∧
    (∀ today cn gn ge gp t ci co ng sp db d1, parseDate ci = some d1 →
      parseDate co = none →
      Server.make_reservation today cn gn ge gp t ci co ng sp db =
        (.invalidFormat, db)) ∧
    (∀ today cn gn ge gp t ci co ng sp db d1 d2, parseDate ci = some d1 →
      parseDate co = some d2 → dateLtb d1 d2 = false →
      Server.make_reservation today cn gn ge gp t ci co ng sp db =
        (.invalidRange, db)) ∧
    (∀ today cn gn ge gp t ci co ng sp db d1 d2, parseDate ci = some d1 →
      parseDate co = some d2 → dateLtb d1 d2 = true →
      dateLtb d1 today = true →
      Server.make_reservation today cn gn ge gp t ci co ng sp db =
        (.pastDate, db)) ∧
    (∀ today cn gn ge gp t ci co ng sp db d1 d2, parseDate ci = some d1 →
      parseDate co = some d2 → dateLtb d1 d2 = true →
      dateLtb d1 today = false →
      Database.check_availability ci co (some t) db = [] →
      Server.make_reservation today cn gn ge gp t ci co ng sp db =
        (.unavailable, db)) ∧
    (∀ today cn gn ge gp t ci co ng sp db d1 d2, parseDate ci = some d1 →
      parseDate co = some d2 → dateLtb d1 d2 = true →
      dateLtb d1 today = false →
      Database.check_availability ci co (some t) db ≠ [] →
      db.room_types.find? (fun x => decide (x.id = t)) = none →
      Server.make_reservation today cn gn ge gp t ci co ng sp db =
        (.unknownRoomType, db)) ∧
    (∀ today cn gn ge gp t ci co ng sp db d1 d2 rt, parseDate ci = some d1 →
      parseDate co = some d2 → dateLtb d1 d2 = true →
      dateLtb d1 today = false →
      Database.check_availability ci co (some t) db ≠ [] →
      db.room_types.find? (fun x => decide (x.id = t)) = some rt →
      ng > rt.max_occupancy →
      Server.make_reservation today cn gn ge gp t ci co ng sp db =
        (.occupancyExceeded, db)) ∧
    (∀ today cn gn ge gp t ci co ng sp db,
      (∀ r, (Server.make_reservation today cn gn ge gp t ci co ng sp db).1 ≠
        .booked r) →
      (Server.make_reservation today cn gn ge gp t ci co ng sp db).2 = db) ∧
    ((Server.make_reservation ⟨2026, 10, 12⟩ "CONFAB12CD" "Guest"
        "guest@example.com" "555-0100" "standard" "2026-11-01" "2026-11-03" 5
        none seedDb).1 = .occupancyExceeded) ∧
    ((Server.make_reservation ⟨2026, 10, 12⟩ "CONFAB12CD" "Guest"
        "guest@example.com" "555-0100" "suite" "2026-11-01" "2026-11-03" 3
        none seedDb).1 =
      .booked ⟨"CONFAB12CD", "Guest", "suite", "2026-11-01", "2026-11-03", 2,
        79800, "confirmed"⟩) := by
  refine ⟨?_, ?_, ?_, ?_, ?_, ?_, ?_, ?_, by decide, by decide⟩
  · intro today cn gn ge gp t ci co ng sp db hci
    unfold Server.make_reservation
    rw [hci]
  · intro today cn gn ge gp t ci co ng sp db d1 hci hco
    unfold Server.make_reservation
    rw [hci, hco]
  · intro today cn gn ge gp t ci co ng sp db d1 d2 hci hco h1
    unfold Server.make_reservation
    simp only [hci, hco]
    rw [if_pos h1]
  · intro today cn gn ge gp t ci co ng sp db d1 d2 hci hco h1 h2
    unfold Server.make_reservation
    simp only [hci, hco]
    rw [if_neg (by simp [h1]), if_pos h2]
  · intro today cn gn ge gp t ci co ng sp db d1 d2 hci hco h1 h2 h3
    unfold Server.make_reservation
    simp only [hci, hco]
    rw [if_neg (by simp [h1]), if_neg (by simp [h2]),
      if_pos (List.isEmpty_iff.mpr h3)]
  · intro today cn gn ge gp t ci co ng sp db d1 d2 hci hco h1 h2 h3 h4
    unfold Server.make_reservation
    simp only [hci, hco]
    rw [if_neg (by simp [h1]), if_neg (by simp [h2]),
      if_neg (fun hh => h3 (List.isEmpty_iff.mp hh))]
    simp only [h4]
  · intro today cn gn ge gp t ci co ng sp db d1 d2 rt hci hco h1 h2 h3 h4 h5
    unfold Server.make_reservation
    simp only [hci, hco]
    rw [if_neg (by simp [h1]), if_neg (by simp [h2]),
      if_neg (fun hh => h3 (List.isEmpty_iff.mp hh))]
    simp only [h4]
    rw [if_pos h5]
  · intro today cn gn ge gp t ci co ng sp db hno
    unfold Server.make_reservation at hno ⊢
    rcases hci : parseDate ci with _ | d1 <;> simp only [hci] at hno ⊢
    rcases hco : parseDate co with _ | d2 <;> simp only [hco] at hno ⊢
    by_cases h1 : dateLtb d1 d2 = false
    · rw [if_pos h1]
    · rw [if_neg h1] at hno ⊢
      by_cases h2 : dateLtb d1 today = true
      · rw [if_pos h2]
      · rw [if_neg h2] at hno ⊢
        by_cases h3 : (Database.check_availability ci co (some t)
            db).isEmpty = true
        · rw [if_pos h3]
        · rw [if_neg h3] at hno ⊢
          rcases h4 : db.room_types.find? (fun x => decide (x.id = t))
            with _ | rt <;> simp only [h4] at hno ⊢
          by_cases h5 : ng > rt.max_occupancy
          · rw [if_pos h5]
          · rw [if_neg h5] at hno ⊢
            rcases h6 : Database.make_reservation cn gn ge gp t ci co ng
                sp db with e | ⟨r0, db0⟩ <;> simp only [h6] at hno ⊢
            · cases e <;> rfl
            · exact absurd rfl (hno r0)


/-- Witness for C7: each guard fires first at a concrete seeded-store
input — unparseable date, reversed range, past check-in, no available
room (unknown filter), unknown room type (empty-string id, which the
falsy availability filter waves through), and excessive occupancy —
and a guard failure leaves the store untouched. -/
theorem c7_facade_guard_order_witness :
    Server.make_reservation ⟨2026, 10, 12⟩ "CONFAB12CD" "G" "g@e" "5" "suite"
        "not-a-date" "2026-11-03" 1 none seedDb = (.invalidFormat, seedDb) ∧
    Server.make_reservation ⟨2026, 10, 12⟩ "CONFAB12CD" "G" "g@e" "5" "suite"
        "2026-11-03" "2026-11-01" 1 none seedDb = (.invalidRange, seedDb) ∧
    Server.make_reservation ⟨2026, 10, 12⟩ "CONFAB12CD" "G" "g@e" "5" "suite"
        "2026-10-01" "2026-10-05" 1 none seedDb = (.pastDate, seedDb) ∧
    Server.make_reservation ⟨2026, 10, 12⟩ "CONFAB12CD" "G" "g@e" "5"
        "penthouse" "2026-11-01" "2026-11-03" 1 none seedDb =
      (.unavailable, seedDb) ∧
    Server.make_reservation ⟨2026, 10, 12⟩ "CONFAB12CD" "G" "g@e" "5" ""
        "2026-11-01" "2026-11-03" 1 none seedDb =
      (.unknownRoomType, seedDb) ∧
    Server.make_reservation ⟨2026, 10, 12⟩ "CONFAB12CD" "G" "g@e" "5"
        "standard" "2026-11-01" "2026-11-03" 5 none seedDb =
      (.occupancyExceeded, seedDb) ∧
    (Server.make_reservation ⟨2026, 10, 12⟩ "CONFAB12CD" "G" "g@e" "5"
        "suite" "not-a-date" "2026-11-03" 1 none seedDb).2 = seedDb :=
  ⟨c7_facade_guard_order.1 ⟨2026, 10, 12⟩ "CONFAB12CD" "G" "g@e" "5" "suite"
    "not-a-date" "2026-11-03" 1 none seedDb (by decide),
   c7_facade_guard_order.2.2.1 ⟨2026, 10, 12⟩ "CONFAB12CD" "G" "g@e" "5"
    "suite" "2026-11-03" "2026-11-01" 1 none seedDb ⟨2026, 11, 3⟩
    ⟨2026, 11, 1⟩ (by decide) (by decide) (by decide),
   c7_facade_guard_order.2.2.2.1 ⟨2026, 10, 12⟩ "CONFAB12CD" "G" "g@e" "5"
    "suite" "2026-10-01" "2026-10-05" 1 none seedDb ⟨2026, 10, 1⟩
    ⟨2026, 10, 5⟩ (by decide) (by decide) (by decide) (by decide),
   c7_facade_guard_order.2.2.2.2.1 ⟨2026, 10, 12⟩ "CONFAB12CD" "G" "g@e" "5"
    "penthouse" "2026-11-01" "2026-11-03" 1 none seedDb ⟨2026, 11, 1⟩
    ⟨2026, 11, 3⟩ (by decide) (by decide) (by decide) (by decide) (by decide),
   c7_facade_guard_order.2.2.2.2.2.1 ⟨2026, 10, 12⟩ "CONFAB12CD" "G" "g@e"
    "5" "" "2026-11-01" "2026-11-03" 1 none seedDb ⟨2026, 11, 1⟩
    ⟨2026, 11, 3⟩ (by decide) (by decide) (by decide) (by decide) (by decide)
    (by decide),
   c7_facade_guard_order.2.2.2.2.2.2.1 ⟨2026, 10, 12⟩ "CONFAB12CD" "G" "g@e"
    "5" "standard" "2026-11-01" "2026-11-03" 5 none seedDb ⟨2026, 11, 1⟩
    ⟨2026, 11, 3⟩
    ⟨"standard", "Standard Room",
      "Comfortable room with queen bed, work desk, and city view.", 14900, 2,
      "[\"Queen Bed\", \"Work Desk\", \"40\\\" TV\", \"WiFi\", \"Coffee Maker\"]"⟩
    (by decide) (by decide) (by decide) (by decide) (by decide) (by decide)
    (by decide),
   c7_facade_guard_order.2.2.2.2.2.2.2.1 ⟨2026, 10, 12⟩ "CONFAB12CD" "G"
    "g@e" "5" "suite" "not-a-date" "2026-11-03" 1 none seedDb
    (by
      intro r h
      rw [show (Server.make_reservation ⟨2026, 10, 12⟩ "CONFAB12CD" "G" "g@e"
          "5" "suite" "not-a-date" "2026-11-03" 1 none seedDb).1 =
          Server.BookResult.invalidFormat from by decide] at h
      exact Server.BookResult.noConfusion h)⟩


/-! ### Claim C8 -/

/-- C8 counterexample: the empty string is a room-type filter matching
no known room-type id, yet `check_availability` returns a non-empty
result for it — Python's `if room_type:` treats the falsy empty string
as no filter at all, so every room comes back instead of none. -/
theorem c8_counterexample :
    (∀ rt ∈ seedDb.room_types, rt.id ≠ "") ∧
    Database.check_availability "2026-11-01" "2026-11-03" (some "") seedDb ≠
      [] := by
  exact ⟨by decide, by decide⟩

/-- C8 (amended): availability results are sorted by nightly base rate
ascending and, within equal rates, by room number ascending (byte-wise,
as SQLite orders TEXT); a NON-EMPTY filter string matching no known
room-type id yields an empty result, not an error; the empty-string
filter is falsy in Python and behaves as no filter. -/
theorem c8_order_and_unknown_filter :
    (∀ check_in check_out f db, List.Sorted Database.availLE
      (Database.check_availability check_in check_out f db)) ∧
    (∀ check_in check_out t db, t ≠ "" → (∀ rt ∈ db.room_types, rt.id ≠ t) →
      Database.check_availability check_in check_out (some t) db = []) ∧
    (∀ check_in check_out db,
      Database.check_availability check_in check_out (some "") db =
        Database.check_availability check_in check_out none db) := by
  refine ⟨?_, ?_, ?_⟩
  · intro check_in check_out f db
    exact List.sorted_insertionSort Database.availLE _
  · intro check_in check_out t db ht hall
    rw [Database.check_availability_some_eq ht,
      List.filter_eq_nil.mpr ?_]
    · rfl
    · intro row hrow
      rw [Database.mem_availRows] at hrow
      obtain ⟨r, hr, rt, hrt, -, -, hroweq⟩ := hrow
      have hmem := List.mem_of_find?_eq_some hrt
      simp only [hroweq, decide_eq_true_eq]
      exact hall rt hmem
  · intro check_in check_out db
    rfl

/-- Witness for C8 (amended): the filter id penthouse is unknown on the
seeded store and yields the empty result. -/
theorem c8_order_and_unknown_filter_witness :
    Database.check_availability "2026-11-01" "2026-11-03" (some "penthouse")
      seedDb = [] :=
  c8_order_and_unknown_filter.2.1 "2026-11-01" "2026-11-03" "penthouse" seedDb
    (by decide) (by decide)


/-! ### Claim C9 -/

/-- C9: frame conditions of the three mutating operations (the read
operations are modelled as pure functions of the store and cannot
mutate it).  A successful `make_reservation` leaves room types, rooms,
hotel info and service requests untouched and only appends to the
reservations (never deleting or altering an existing one);
`cancel_reservation` touches nothing but reservation statuses, and each
reservation is either unchanged or moved from confirmed to cancelled
with every other field intact; `submit_service_request` leaves all
other tables untouched and only appends to the service requests. -/
theorem c9_frame_conditions :
    (∀ cn gn ge gp t ci co ng sp db r db',
      Database.make_reservation cn gn ge gp t ci co ng sp db = .ok (r, db') →
      db'.room_types = db.room_types ∧ db'.rooms = db.rooms ∧
      db'.hotel_info = db.hotel_info ∧
      db'.service_requests = db.service_requests ∧
      db'.next_request_id = db.next_request_id ∧
      db.reservations <+: db'.reservations) ∧
    (∀ conf db,
      (Database.cancel_reservation conf db).2.room_types = db.room_types ∧
      (Database.cancel_reservation conf db).2.rooms = db.rooms ∧
      (Database.cancel_reservation conf db).2.hotel_info = db.hotel_info ∧
      (Database.cancel_reservation conf db).2.service_requests =
        db.service_requests ∧
      (Database.cancel_reservation conf db).2.next_request_id =
        db.next_request_id ∧
      List.Forall₂ (fun old new => new = old ∨
          (Reservation.status old = "confirmed" ∧
            new = { old with status := "cancelled" }))
        db.reservations (Database.cancel_reservation conf db).2.reservations) ∧
    (∀ conf ty desc db,
      (Database.submit_service_request conf ty desc db).2.room_types =
        db.room_types ∧
      (Database.submit_service_request conf ty desc db).2.rooms = db.rooms ∧
      (Database.submit_service_request conf ty desc db).2.hotel_info =
        db.hotel_info ∧
      (Database.submit_service_request conf ty desc db).2.reservations =
        db.reservations ∧
      db.service_requests <+:
        (Database.submit_service_request conf ty desc db).2.service_requests) := by
  refine ⟨?_, ?_, ?_⟩
  · intro cn gn ge gp t ci co ng sp db r db' h
    obtain ⟨d1, d2, rt, -, -, -, -, -, hdb'⟩ :=
      Database.make_reservation_ok_inv h
    subst hdb'
    exact ⟨rfl, rfl, rfl, rfl, rfl, List.prefix_append _ _⟩
  · intro conf db
    refine ⟨rfl, rfl, rfl, rfl, rfl, ?_⟩
    show List.Forall₂ _ db.reservations (db.reservations.map fun r =>
      if r.confirmation_number = strUpper conf ∧ r.status = "confirmed"
      then { r with status := "cancelled" } else r)
    rw [List.forall₂_map_right_iff]
    rw [List.forall₂_same]
    intro x _
    by_cases hx : x.confirmation_number = strUpper conf ∧
      x.status = "confirmed"
    · exact Or.inr ⟨hx.2, by rw [if_pos hx]⟩
    · exact Or.inl (by rw [if_neg hx])
  · intro conf ty desc db
    by_cases h : db.reservations.any (fun r =>
        decide (r.confirmation_number = strUpper conf) &&
        (decide (r.status = "confirmed") ||
          decide (r.status = "checked_in"))) = true
    · have hS : Database.submit_service_request conf ty desc db =
          (some ⟨db.next_request_id, strUpper conf, ty, desc, "pending"⟩,
           { db with
              service_requests := (db.service_requests ++
                [⟨db.next_request_id, strUpper conf, ty, desc, "pending"⟩]),
              next_request_id := db.next_request_id + 1 }) := by
        unfold Database.submit_service_request
        rw [if_pos h]
      rw [hS]
      exact ⟨rfl, rfl, rfl, rfl, List.prefix_append _ _⟩
    · have hS : Database.submit_service_request conf ty desc db =
          (none, db) := by
        unfold Database.submit_service_request
        rw [if_neg h]
      rw [hS]
      exact ⟨rfl, rfl, rfl, rfl, List.prefix_refl _⟩

/-- Witness for C9: the booking conjunct applied to a concrete suite
booking on the seeded store — the old reservation list is a prefix of
the new one. -/
theorem c9_frame_conditions_witness :
    seedDb.reservations <+:
      ({ seedDb with reservations := seedDb.reservations ++
        [⟨"CONFAB12CD", "Guest", "guest@example.com", "555-0100", none,
          "suite", "2026-11-01", "2026-11-03", 3, "confirmed", some 79800,
          none⟩] } : DB).reservations :=
  (c9_frame_conditions.1 "CONFAB12CD" "Guest" "guest@example.com" "555-0100"
    "suite" "2026-11-01" "2026-11-03" 3 none seedDb
    ⟨"CONFAB12CD", "Guest", "suite", "2026-11-01", "2026-11-03", 2, 79800,
      "confirmed"⟩
    { seedDb with reservations := seedDb.reservations ++
      [⟨"CONFAB12CD", "Guest", "guest@example.com", "555-0100", none,
        "suite", "2026-11-01", "2026-11-03", 3, "confirmed", some 79800,
        none⟩] }
    (by decide)).2.2.2.2.2


/-! ### Claim C10 -/

/-- C10: with parseable dates, the store-level `make_reservation` on a
room-type id absent from `room_types` hits the subscript of an absent
`fetchone()` row — the unhandled `TypeError` modelled as
`.error .typeNotFound` — instead of returning any value; a non-empty
availability result for a non-falsy filter id guarantees the id is
known, so the store call cannot hit that branch; and under the façade
(which also checks id membership itself) the fault is unreachable
outright. -/
theorem c10_unknown_room_type_fault :
    (∀ cn gn ge gp t ci co ng sp db d1 d2, parseDate ci = some d1 →
      parseDate co = some d2 → (∀ rt ∈ db.room_types, rt.id ≠ t) →
      Database.make_reservation cn gn ge gp t ci co ng sp db =
        .error .typeNotFound) ∧
    (∀ cn gn ge gp t ci co ng sp db, t ≠ "" →
      Database.check_availability ci co (some t) db ≠ [] →
      Database.make_reservation cn gn ge gp t ci co ng sp db ≠
        .error .typeNotFound) ∧
    (∀ today cn gn ge gp t ci co ng sp db,
      (Server.make_reservation today cn gn ge gp t ci co ng sp db).1 ≠
        .storeFault .typeNotFound) := by
  refine ⟨?_, ?_, ?_⟩
  · intro cn gn ge gp t ci co ng sp db d1 d2 hci hco hall
    have hfind : db.room_types.find? (fun rt => decide (rt.id = t)) = none :=
      List.find?_eq_none.mpr (fun x hx => by simpa using hall x hx)
    unfold Database.make_reservation
    simp only [hci, hco, hfind]
  · intro cn gn ge gp t ci co ng sp db ht havail hcontra
    obtain ⟨row, hrow⟩ := List.exists_mem_of_ne_nil _ havail
    rw [Database.mem_check_availability_some ht] at hrow
    obtain ⟨hmem, hrowt⟩ := hrow
    rw [Database.mem_availRows] at hmem
    obtain ⟨r, hr, rt, hrt, -, -, hroweq⟩ := hmem
    have hrtmem := List.mem_of_find?_eq_some hrt
    have hid : rt.id = t := by rw [hroweq] at hrowt; exact hrowt
    have hsome : (db.room_types.find?
        (fun x => decide (x.id = t))).isSome = true :=
      List.find?_isSome.mpr ⟨rt, hrtmem, by simp [hid]⟩
    obtain ⟨rt2, hrt2⟩ := Option.isSome_iff_exists.mp hsome
    unfold Database.make_reservation at hcontra
    rcases hci : parseDate ci with _ | d1 <;>
      rcases hco : parseDate co with _ | d2 <;>
      simp only [hci, hco] at hcontra
    · injection hcontra with h
      exact Database.DbErr.noConfusion h
    · injection hcontra with h
      exact Database.DbErr.noConfusion h
    · injection hcontra with h
      exact Database.DbErr.noConfusion h
    · simp only [hrt2] at hcontra
      cases hdup : db.reservations.any
          (fun x => decide (x.confirmation_number = cn)) <;>
        simp only [hdup] at hcontra <;> simp at hcontra
  · intro today cn gn ge gp t ci co ng sp db hcontra
    unfold Server.make_reservation at hcontra
    rcases hci : parseDate ci with _ | d1 <;> simp only [hci] at hcontra
    · exact Server.BookResult.noConfusion hcontra
    · rcases hco : parseDate co with _ | d2 <;> simp only [hco] at hcontra
      · exact Server.BookResult.noConfusion hcontra
      · by_cases h1 : dateLtb d1 d2 = false
        · rw [if_pos h1] at hcontra
          exact Server.BookResult.noConfusion hcontra
        · rw [if_neg h1] at hcontra
          by_cases h2 : dateLtb d1 today = true
          · rw [if_pos h2] at hcontra
            exact Server.BookResult.noConfusion hcontra
          · rw [if_neg h2] at hcontra
            by_cases h3 : (Database.check_availability ci co (some t)
                db).isEmpty = true
            · rw [if_pos h3] at hcontra
              exact Server.BookResult.noConfusion hcontra
            · rw [if_neg h3] at hcontra
              rcases h4 : db.room_types.find? (fun x => decide (x.id = t))
                with _ | rt <;> simp only [h4] at hcontra
              · exact Server.BookResult.noConfusion hcontra
              · by_cases h5 : ng > rt.max_occupancy
                · rw [if_pos h5] at hcontra
                  exact Server.BookResult.noConfusion hcontra
                · rw [if_neg h5] at hcontra
                  rcases h6 : Database.make_reservation cn gn ge gp t ci co
                      ng sp db with e | ⟨r0, db0⟩ <;>
                    simp only [h6] at hcontra
                  · cases e
                    · exact Server.BookResult.noConfusion hcontra
                    · unfold Database.make_reservation at h6
                      simp only [hci, hco, h4] at h6
                      cases hdup : db.reservations.any
                          (fun x => decide (x.confirmation_number = cn)) <;>
                        simp only [hdup] at h6 <;> simp at h6
                    · injection hcontra with h
                      exact Database.DbErr.noConfusion h
                  · exact Server.BookResult.noConfusion hcontra


/-- Witness for C10 on the seeded store: booking the unknown type
penthouse faults at the store level, booking a suite cannot hit that
branch, and the façade never surfaces it. -/
theorem c10_unknown_room_type_fault_witness :
    Database.make_reservation "CONFAB12CD" "G" "g@e" "5" "penthouse"
        "2026-11-01" "2026-11-03" 1 none seedDb = .error .typeNotFound ∧
    Database.make_reservation "CONFAB12CD" "G" "g@e" "5" "suite"
        "2026-11-01" "2026-11-03" 1 none seedDb ≠ .error .typeNotFound ∧
    (Server.make_reservation ⟨2026, 10, 12⟩ "CONFAB12CD" "G" "g@e" "5"
        "penthouse" "2026-11-01" "2026-11-03" 1 none seedDb).1 ≠
      .storeFault .typeNotFound :=
  ⟨c10_unknown_room_type_fault.1 "CONFAB12CD" "G" "g@e" "5" "penthouse"
    "2026-11-01" "2026-11-03" 1 none seedDb ⟨2026, 11, 1⟩ ⟨2026, 11, 3⟩
    (by decide) (by decide) (by decide),
   c10_unknown_room_type_fault.2.1 "CONFAB12CD" "G" "g@e" "5" "suite"
    "2026-11-01" "2026-11-03" 1 none seedDb (by decide) (by decide),
   c10_unknown_room_type_fault.2.2 ⟨2026, 10, 12⟩ "CONFAB12CD" "G" "g@e" "5"
    "penthouse" "2026-11-01" "2026-11-03" 1 none seedDb⟩

end HotelConcierge
